import Mathlib

/-!
Verification of the metrics-aggregation core of the screening-strategy
dashboard (`src/main.py`).

Shallow embedding:

* A pandas `DataFrame` loaded from one per-strategy CSV is modelled as a
  `DataFrame`: a `Schema` of booleans saying which optional columns are
  present, plus a list of `AgeRow`s giving the numeric cell values of each
  row.  Numeric cells are embedded as rationals `ℚ`.
* `df['X'].sum()` on a column that may be absent raises `KeyError` in
  pandas; fallible computations are therefore embedded in
  `Except String _`, with the error string naming the missing column.
* `calculate_metrics` (main.py lines 64-96) accesses the columns
  `Cancer`, `Cancer death` and `Population` unconditionally (raising
  `KeyError` when absent) and guards every other column with
  `if col in df.columns else 0`.
* `load_strategy_data` (lines 53-62) is external I/O (reads
  `cancer_screening_resultsN.csv`, returns `None` on
  `FileNotFoundError`); it is abstracted as a parameter
  `loader : Nat → Option DataFrame`, `none` being the NotFound signal.
* `load_all_strategies` (lines 99-131) iterates ids 1..15, skips ids whose
  load returned `None`, and builds one combined result row per loaded id
  together with the `age_distributions` mapping (an association list in
  insertion order).
-/

/-- One row of a per-strategy CSV: the numeric value of every possible
column at one age.  A value is only meaningful when the corresponding
`Schema` flag says the column is present. -/
structure AgeRow where
  age : ℚ
  cancer : ℚ
  cancer_death : ℚ
  population : ℚ
  total_test : ℚ
  cyto : ℚ
  hpv : ℚ
  cotest : ℚ
  cin2_detected : ℚ
  cin3_detected : ℚ
deriving DecidableEq

/-- Which optional columns of the CSV are present (`'X' in df.columns`).
The `Age` column is always present and needs no flag. -/
structure Schema where
  has_cancer : Bool
  has_cancer_death : Bool
  has_population : Bool
  has_total_test : Bool
  has_cyto : Bool
  has_hpv : Bool
  has_cotest : Bool
  has_cin2_detected : Bool
  has_cin3_detected : Bool
deriving DecidableEq

/-- A loaded per-strategy table: column-presence schema plus the rows. -/
structure DataFrame where
  schema : Schema
  rows : List AgeRow
deriving DecidableEq

/-- The metrics dict built by `calculate_metrics` (main.py lines 71-94). -/
structure StrategyMetrics where
  total_cancers : ℚ
  total_cancer_deaths : ℚ
  total_life_years : ℚ
  total_tests : ℚ
  total_cyto : ℚ
  total_hpv : ℚ
  total_cotest : ℚ
  total_cin2_detected : ℚ
  total_cin3_detected : ℚ
  case_fatality_rate : ℚ
  cancer_rate_per_100k : ℚ
  death_rate_per_100k : ℚ
deriving DecidableEq

/-- `df['X'].sum() if 'X' in df.columns else 0` (main.py lines 75-80). -/
def optSum (df : DataFrame) (present : Bool) (f : AgeRow → ℚ) : ℚ :=
  if present then (df.rows.map f).sum else 0

/-- The metrics record computed by `calculate_metrics` once the three
unconditionally-accessed columns are known to be present
(main.py lines 71-94).  Derived rates use the zero-default branch when
the denominator is not positive. -/
def metricsOf (df : DataFrame) : StrategyMetrics :=
  let total_cancers : ℚ := (df.rows.map fun r => r.cancer).sum
  let total_cancer_deaths : ℚ := (df.rows.map fun r => r.cancer_death).sum
  let total_life_years : ℚ := (df.rows.map fun r => r.population).sum
  { total_cancers := total_cancers
    total_cancer_deaths := total_cancer_deaths
    total_life_years := total_life_years
    total_tests := optSum df df.schema.has_total_test fun r => r.total_test
    total_cyto := optSum df df.schema.has_cyto fun r => r.cyto
    total_hpv := optSum df df.schema.has_hpv fun r => r.hpv
    total_cotest := optSum df df.schema.has_cotest fun r => r.cotest
    total_cin2_detected :=
      optSum df df.schema.has_cin2_detected fun r => r.cin2_detected
    total_cin3_detected :=
      optSum df df.schema.has_cin3_detected fun r => r.cin3_detected
    case_fatality_rate :=
      if total_cancers > 0 then total_cancer_deaths / total_cancers * 100 else 0
    cancer_rate_per_100k :=
      if total_life_years > 0 then total_cancers / total_life_years * 100000
      else 0
    death_rate_per_100k :=
      if total_life_years > 0 then
        total_cancer_deaths / total_life_years * 100000
      else 0 }

/-- `calculate_metrics` (main.py lines 64-96).  A `None` input returns
`None`.  Otherwise `df['Cancer'].sum()`, `df['Cancer death'].sum()` and
`df['Population'].sum()` are evaluated unconditionally, so the first of
these columns that is absent raises `KeyError` (embedded as
`Except.error`); all remaining column accesses are guarded and default
to 0. -/
def calculate_metrics : Option DataFrame → Except String (Option StrategyMetrics)
  | none => Except.ok none
  | some df =>
    if df.schema.has_cancer = false then Except.error "KeyError: Cancer"
    else if df.schema.has_cancer_death = false then
      Except.error "KeyError: Cancer death"
    else if df.schema.has_population = false then
      Except.error "KeyError: Population"
    else Except.ok (some (metricsOf df))

/-- The three columns `calculate_metrics` reads without a presence guard. -/
def required_present (df : DataFrame) : Bool :=
  df.schema.has_cancer && df.schema.has_cancer_death && df.schema.has_population

theorem calculate_metrics_of_required (df : DataFrame)
    (h : required_present df = true) :
    calculate_metrics (some df) = Except.ok (some (metricsOf df)) := by
  unfold required_present at h
  simp only [Bool.and_eq_true] at h
  simp [calculate_metrics, h.1.1, h.1.2, h.2]

/-- One catalog entry of `STRATEGY_DEFINITIONS` (main.py lines 35-51). -/
structure StrategyDefinition where
  display : String
  name : String
  test : String
  start_age : Nat
  end_age : Nat
  switch_age : Option Nat
  exit_tests : Nat
  interval : String
deriving DecidableEq

/-- `STRATEGY_DEFINITIONS` (main.py lines 35-51): the static dict of the
15 strategy definitions, keyed by id; lookup of an unknown id yields
`none` (Python: `KeyError`). -/
def STRATEGY_DEFINITIONS : Nat → Option StrategyDefinition
  | 1 => some { display := "1", name := "CYTO-3Y, 21-65", test := "Cyto only",
                start_age := 21, end_age := 65, switch_age := none,
                exit_tests := 3, interval := "3Y" }
  | 2 => some { display := "2", name := "CYTO-3Y, 21/HPV-5Y, 30-65",
                test := "Cyto→HPV", start_age := 21, end_age := 65,
                switch_age := some 30, exit_tests := 2, interval := "3Y→5Y" }
  | 3 => some { display := "3", name := "CYTO-3Y, 21/COTEST-5Y, 30-65",
                test := "Cyto→Cotest", start_age := 21, end_age := 65,
                switch_age := some 30, exit_tests := 2, interval := "3Y→5Y" }
  | 4 => some { display := "4", name := "CYTO-3Y, 21-70", test := "Cyto only",
                start_age := 21, end_age := 70, switch_age := none,
                exit_tests := 3, interval := "3Y" }
  | 5 => some { display := "5", name := "CYTO-3Y, 21/HPV-5Y, 30-70",
                test := "Cyto→HPV", start_age := 21, end_age := 70,
                switch_age := some 30, exit_tests := 2, interval := "3Y→5Y" }
  | 6 => some { display := "6", name := "CYTO-3Y, 21/COTEST-5Y, 30-70",
                test := "Cyto→Cotest", start_age := 21, end_age := 70,
                switch_age := some 30, exit_tests := 2, interval := "3Y→5Y" }
  | 7 => some { display := "7", name := "CYTO-3Y, 21-75", test := "Cyto only",
                start_age := 21, end_age := 75, switch_age := none,
                exit_tests := 3, interval := "3Y" }
  | 8 => some { display := "8", name := "CYTO-3Y, 21/HPV-5Y, 30-75",
                test := "Cyto→HPV", start_age := 21, end_age := 75,
                switch_age := some 30, exit_tests := 2, interval := "3Y→5Y" }
  | 9 => some { display := "9", name := "CYTO-3Y, 21/COTEST-5Y, 30-75",
                test := "Cyto→Cotest", start_age := 21, end_age := 75,
                switch_age := some 30, exit_tests := 2, interval := "3Y→5Y" }
  | 10 => some { display := "10", name := "CYTO-3Y, 21/HPV-5Y, 30-65 (1 exit)",
                 test := "Cyto→HPV", start_age := 21, end_age := 65,
                 switch_age := some 30, exit_tests := 1, interval := "3Y→5Y" }
  | 11 => some { display := "11",
                 name := "CYTO-3Y, 21/COTEST-5Y, 30-65 (1 exit)",
                 test := "Cyto→Cotest", start_age := 21, end_age := 65,
                 switch_age := some 30, exit_tests := 1, interval := "3Y→5Y" }
  | 12 => some { display := "12", name := "CYTO-3Y, 21/HPV-5Y, 30-70 (1 exit)",
                 test := "Cyto→HPV", start_age := 21, end_age := 70,
                 switch_age := some 30, exit_tests := 1, interval := "3Y→5Y" }
  | 13 => some { display := "13",
                 name := "CYTO-3Y, 21/COTEST-5Y, 30-70 (1 exit)",
                 test := "Cyto→Cotest", start_age := 21, end_age := 70,
                 switch_age := some 30, exit_tests := 1, interval := "3Y→5Y" }
  | 14 => some { display := "14", name := "CYTO-3Y, 21/HPV-5Y, 30-75 (1 exit)",
                 test := "Cyto→HPV", start_age := 21, end_age := 75,
                 switch_age := some 30, exit_tests := 1, interval := "3Y→5Y" }
  | 15 => some { display := "15",
                 name := "CYTO-3Y, 21/COTEST-5Y, 30-75 (1 exit)",
                 test := "Cyto→Cotest", start_age := 21, end_age := 75,
                 switch_age := some 30, exit_tests := 1, interval := "3Y→5Y" }
  | _ => none

/-- One combined row of the summary built by `load_all_strategies`
(main.py lines 117-128): catalog fields joined with the computed
metrics.  `switch_age = none` corresponds to the literal `'-'` the
source stores for strategies without a switch age (line 124). -/
structure ResultRow where
  strategy : Nat
  display : String
  name : String
  test_type : String
  start_age : Nat
  end_age : Nat
  switch_age : Option Nat
  exit_tests : Nat
  interval : String
  metrics : StrategyMetrics
deriving DecidableEq

/-- The loop body of `load_all_strategies` (main.py lines 104-129) over an
explicit list of ids: skip an id whose load returns `None`; otherwise
record its table in `age_distributions` (second component), and unless
`calculate_metrics` returned `None`, append the combined result row.  An
exception inside the loop (KeyError) aborts the whole call. -/
def processIds (loader : Nat → Option DataFrame) :
    List Nat → Except String (List ResultRow × List (Nat × DataFrame))
  | [] => Except.ok ([], [])
  | n :: rest =>
    match loader n with
    | none => processIds loader rest
    | some df =>
      match calculate_metrics (some df) with
      | Except.error e => Except.error e
      | Except.ok none =>
        (processIds loader rest).map fun p => (p.1, (n, df) :: p.2)
      | Except.ok (some m) =>
        match STRATEGY_DEFINITIONS n with
        | none => Except.error "KeyError: STRATEGY_DEFINITIONS"
        | some info =>
          (processIds loader rest).map fun p =>
            ({ strategy := n, display := info.display, name := info.name,
               test_type := info.test, start_age := info.start_age,
               end_age := info.end_age, switch_age := info.switch_age,
               exit_tests := info.exit_tests, interval := info.interval,
               metrics := m } :: p.1,
             (n, df) :: p.2)

/-- `load_all_strategies` (main.py lines 99-131): run the loop over
strategy ids 1..15 (`range(1, 16)`), returning the summary rows and the
`age_distributions` association list, both in ascending-id order. -/
def load_all_strategies (loader : Nat → Option DataFrame) :
    Except String (List ResultRow × List (Nat × DataFrame)) :=
  processIds loader (List.range' 1 15)

/-- Outcome of the data-loading part of `main` (main.py lines 497-507):
either the distinguished empty-summary error path (`st.error` + early
`return`, lines 500-502) or the rendering path carrying the summary. -/
inductive MainResult
  | emptyError
  | rendered (rows : List ResultRow)
deriving DecidableEq

/-- `main`'s handling of the summary (main.py lines 497-507): when the
summary dataframe is empty it reports an error and short-circuits,
otherwise it proceeds to render. -/
def main_result (loader : Nat → Option DataFrame) : Except String MainResult :=
  (load_all_strategies loader).map fun p =>
    if p.1.isEmpty then MainResult.emptyError else MainResult.rendered p.1

/-- Python `str.isdigit` restricted to ASCII digits, the only labels the
catalog produces ("1".."15"). -/
def str_isdigit (s : String) : Bool :=
  !s.data.isEmpty && s.data.all fun c => c.isDigit

/-- Python `int(s)` on a decimal digit string. -/
def str_to_nat (s : String) : Nat :=
  s.data.foldl (fun a c => a * 10 + (c.toNat - 48)) 0

/-- The sort-key lambda of `create_strategy_overview_table`
(main.py lines 140-141): digit labels up to 9 keep their value, larger
digit labels get value + 3, anything else gets 999. -/
def overview_sort_key (x : String) : Nat :=
  if str_isdigit x = true ∧ str_to_nat x ≤ 9 then str_to_nat x
  else if str_isdigit x = true then str_to_nat x + 3
  else 999

/-- The sort-key lambda of the detailed-comparison table in `main`
(main.py lines 608-609), textually identical to the one in
`create_strategy_overview_table`. -/
def main_sort_key (x : String) : Nat :=
  if str_isdigit x = true ∧ str_to_nat x ≤ 9 then str_to_nat x
  else if str_isdigit x = true then str_to_nat x + 3
  else 999

/-- Row constructor for tables whose only populated columns are `Age`,
`Cancer`, `Cancer death` and `Population`; the remaining cells are 0. -/
def mkRow (age cancer death pop : ℚ) : AgeRow :=
  { age := age, cancer := cancer, cancer_death := death, population := pop,
    total_test := 0, cyto := 0, hpv := 0, cotest := 0,
    cin2_detected := 0, cin3_detected := 0 }

/-- Schema of a CSV carrying every optional column. -/
def fullSchema : Schema :=
  { has_cancer := true, has_cancer_death := true, has_population := true,
    has_total_test := true, has_cyto := true, has_hpv := true,
    has_cotest := true, has_cin2_detected := true, has_cin3_detected := true }

/-- Schema of a CSV carrying only `Age`, `Cancer`, `Cancer death` and
`Population`. -/
def reqSchema : Schema :=
  { has_cancer := true, has_cancer_death := true, has_population := true,
    has_total_test := false, has_cyto := false, has_hpv := false,
    has_cotest := false, has_cin2_detected := false,
    has_cin3_detected := false }

/-- Schema of a CSV carrying only the `Age` column. -/
def ageOnlySchema : Schema :=
  { has_cancer := false, has_cancer_death := false, has_population := false,
    has_total_test := false, has_cyto := false, has_hpv := false,
    has_cotest := false, has_cin2_detected := false,
    has_cin3_detected := false }

/-- Table whose `Cancer` column sums to 0 while `Cancer death` sums to 5. -/
def exDF1 : DataFrame :=
  { schema := fullSchema, rows := [mkRow 1 0 5 100] }

/-- The three-row table of the round-trip test: ages 1..3,
`Cancer=[1,2,3]`, `Cancer death=[0,1,1]`, `Population=[100,100,100]`,
no other optional columns. -/
def exDF2 : DataFrame :=
  { schema := reqSchema,
    rows := [mkRow 1 1 0 100, mkRow 2 2 1 100, mkRow 3 3 1 100] }

/-- Table with an `Age` column and nothing else. -/
def exDF3 : DataFrame :=
  { schema := ageOnlySchema, rows := [mkRow 30 0 0 0] }

/-- Inversion for a successful aggregation: the produced record is
exactly `metricsOf df`. -/
theorem calculate_metrics_ok (df : DataFrame) (m : StrategyMetrics)
    (h : calculate_metrics (some df) = Except.ok (some m)) :
    m = metricsOf df := by
  simp only [calculate_metrics] at h
  split at h
  · simp at h
  · split at h
    · simp at h
    · split at h
      · simp at h
      · injection h with h
        injection h with h
        exact h.symm

/-- Claim C1: whenever `calculate_metrics` produces a metrics record,
`case_fatality_rate` equals `total_cancer_deaths / total_cancers * 100`
when `total_cancers > 0` and `0` otherwise, and the two per-100k rates
equal the corresponding quotient times 100000 when `total_life_years > 0`
and `0` otherwise. -/
theorem C1_derived_rates (df : DataFrame) (m : StrategyMetrics)
    (h : calculate_metrics (some df) = Except.ok (some m)) :
    m.case_fatality_rate =
      (if m.total_cancers > 0 then
        m.total_cancer_deaths / m.total_cancers * 100 else 0)
    ∧ m.cancer_rate_per_100k =
      (if m.total_life_years > 0 then
        m.total_cancers / m.total_life_years * 100000 else 0)
    ∧ m.death_rate_per_100k =
      (if m.total_life_years > 0 then
        m.total_cancer_deaths / m.total_life_years * 100000 else 0) := by
  have hm := calculate_metrics_ok df m h
  subst hm
  exact ⟨rfl, rfl, rfl⟩

/-- Witness for C1: on a concrete table with `totalCancers = 0` and
`totalCancerDeaths = 5` the case-fatality rate is 0, not an error. -/
theorem C1_witness :
    calculate_metrics (some exDF1) = Except.ok (some (metricsOf exDF1))
    ∧ (metricsOf exDF1).total_cancers = 0
    ∧ (metricsOf exDF1).total_cancer_deaths = 5
    ∧ (metricsOf exDF1).case_fatality_rate = 0 := by
  refine ⟨by rfl, by norm_num [metricsOf, exDF1, mkRow, fullSchema],
    by norm_num [metricsOf, exDF1, mkRow, fullSchema], ?_⟩
  have h := (C1_derived_rates exDF1 (metricsOf exDF1) (by rfl)).1
  rw [h]
  norm_num [metricsOf, exDF1, mkRow, fullSchema]

/-- Claim C2: on the three-row series with ages 1..3, `Cancer=[1,2,3]`,
`Cancer death=[0,1,1]`, `Population=[100,100,100]` and no other columns,
aggregation yields totals 6, 2, 300, case-fatality rate 200/6, cancer
rate 2000 per 100k and death rate 200000/300 per 100k. -/
theorem C2_roundtrip :
    ∃ m, calculate_metrics (some exDF2) = Except.ok (some m)
      ∧ m.total_cancers = 6
      ∧ m.total_cancer_deaths = 2
      ∧ m.total_life_years = 300
      ∧ m.case_fatality_rate = 200 / 6
      ∧ m.cancer_rate_per_100k = 2000
      ∧ m.death_rate_per_100k = 200000 / 300 :=
  ⟨metricsOf exDF2, by rfl,
    by norm_num [metricsOf, exDF2, mkRow, reqSchema],
    by norm_num [metricsOf, exDF2, mkRow, reqSchema],
    by norm_num [metricsOf, exDF2, mkRow, reqSchema],
    by norm_num [metricsOf, exDF2, mkRow, reqSchema, optSum],
    by norm_num [metricsOf, exDF2, mkRow, reqSchema, optSum],
    by norm_num [metricsOf, exDF2, mkRow, reqSchema, optSum]⟩

/-- Counterexample to claim C3: a table that has the `Age` column but no
`Cancer` column makes `calculate_metrics` raise `KeyError` instead of
treating the absent column as zero. -/
theorem C3_counterexample :
    calculate_metrics (some exDF3) = Except.error "KeyError: Cancer" := by
  rfl

/-- Claim C3 as amended: aggregation succeeds exactly when the `Cancer`,
`Cancer death` and `Population` columns are present, and then every
absent optional test-count or CIN column contributes a zero total. -/
theorem C3_amended_optional_zero (df : DataFrame)
    (hreq : required_present df = true) :
    ∃ m, calculate_metrics (some df) = Except.ok (some m)
      ∧ (df.schema.has_total_test = false → m.total_tests = 0)
      ∧ (df.schema.has_cyto = false → m.total_cyto = 0)
      ∧ (df.schema.has_hpv = false → m.total_hpv = 0)
      ∧ (df.schema.has_cotest = false → m.total_cotest = 0)
      ∧ (df.schema.has_cin2_detected = false → m.total_cin2_detected = 0)
      ∧ (df.schema.has_cin3_detected = false → m.total_cin3_detected = 0) := by
  refine ⟨metricsOf df, calculate_metrics_of_required df hreq,
    ?_, ?_, ?_, ?_, ?_, ?_⟩
  all_goals intro h
  all_goals simp [metricsOf, optSum, h]

/-- Witness for the amended C3: on the concrete table that has only the
required columns, aggregation succeeds and all optional totals are 0. -/
theorem C3_witness :
    required_present exDF2 = true
    ∧ ∃ m, calculate_metrics (some exDF2) = Except.ok (some m)
      ∧ (exDF2.schema.has_total_test = false → m.total_tests = 0)
      ∧ (exDF2.schema.has_cyto = false → m.total_cyto = 0)
      ∧ (exDF2.schema.has_hpv = false → m.total_hpv = 0)
      ∧ (exDF2.schema.has_cotest = false → m.total_cotest = 0)
      ∧ (exDF2.schema.has_cin2_detected = false → m.total_cin2_detected = 0)
      ∧ (exDF2.schema.has_cin3_detected = false → m.total_cin3_detected = 0) :=
  ⟨by rfl, C3_amended_optional_zero exDF2 (by rfl)⟩

/-- Behaviour of the `load_all_strategies` loop over any id list, given
that every table the loader does return carries the three columns
`calculate_metrics` reads unconditionally: the loop never fails, skips
exactly the ids whose load returned `None`, records loaded tables in
order, and fills each row's catalog fields from `STRATEGY_DEFINITIONS`. -/
theorem processIds_spec (loader : Nat → Option DataFrame) (l : List Nat)
    (hdefs : ∀ i ∈ l, (STRATEGY_DEFINITIONS i).isSome = true)
    (hreq : ∀ i df, loader i = some df → required_present df = true) :
    ∃ rows ads, processIds loader l = Except.ok (rows, ads)
      ∧ rows.map (fun r => r.strategy) = l.filter (fun i => (loader i).isSome)
      ∧ ads.map Prod.fst = l.filter (fun i => (loader i).isSome)
      ∧ ∀ r ∈ rows, r.strategy ∈ l ∧
          ∃ d, STRATEGY_DEFINITIONS r.strategy = some d
            ∧ r.display = d.display := by
  induction l with
  | nil => exact ⟨[], [], rfl, rfl, rfl, by simp⟩
  | cons n rest ih =>
    obtain ⟨rows, ads, hok, hmap, hads, hdisp⟩ :=
      ih fun i hi => hdefs i (List.mem_cons_of_mem _ hi)
    cases hln : loader n with
    | none =>
      refine ⟨rows, ads, ?_, ?_, ?_, ?_⟩
      · simp [processIds, hln, hok]
      · simp [List.filter_cons, hln, hmap]
      · simp [List.filter_cons, hln, hads]
      · intro r hr
        exact ⟨List.mem_cons_of_mem _ (hdisp r hr).1, (hdisp r hr).2⟩
    | some df =>
      have hcm := calculate_metrics_of_required df (hreq n df hln)
      obtain ⟨info, hinfo⟩ :=
        Option.isSome_iff_exists.mp (hdefs n (List.mem_cons_self n rest))
      refine ⟨{ strategy := n, display := info.display, name := info.name,
                test_type := info.test, start_age := info.start_age,
                end_age := info.end_age, switch_age := info.switch_age,
                exit_tests := info.exit_tests, interval := info.interval,
                metrics := metricsOf df } :: rows,
              (n, df) :: ads, ?_, ?_, ?_, ?_⟩
      · simp [processIds, hln, hcm, hinfo, hok, Except.map]
      · simp [List.filter_cons, hln, hmap]
      · simp [List.filter_cons, hln, hads]
      · intro r hr
        rcases List.mem_cons.mp hr with hr | hr
        · subst hr
          exact ⟨List.mem_cons_self n rest, info, hinfo, rfl⟩
        · exact ⟨List.mem_cons_of_mem _ (hdisp r hr).1, (hdisp r hr).2⟩

/-- The id range `range(1, 16)` iterated by `load_all_strategies`,
written as an explicit list. -/
theorem catalog_ids_eq :
    List.range' 1 15 = [1, 2, 3, 4, 5, 6, 7, 8, 9, 10, 11, 12, 13, 14, 15] := by
  decide

/-- Claim C4: if every table the loader does produce carries the three
unconditionally-read columns, then whatever subset of the 15 ids fails
to load, the build succeeds, and the summary holds exactly one row per
id that loaded, in ascending id order. -/
theorem C4_missing_isolated (loader : Nat → Option DataFrame)
    (hreq : ∀ i df, loader i = some df → required_present df = true) :
    ∃ rows ads, load_all_strategies loader = Except.ok (rows, ads)
      ∧ rows.map (fun r => r.strategy)
          = (List.range' 1 15).filter (fun i => (loader i).isSome)
      ∧ List.Sorted (fun a b => a < b) (rows.map fun r => r.strategy) := by
  obtain ⟨rows, ads, hok, hmap, -, -⟩ :=
    processIds_spec loader (List.range' 1 15) (by decide) hreq
  refine ⟨rows, ads, hok, hmap, ?_⟩
  rw [hmap]
  exact List.Pairwise.filter _ (by decide)

/-- A loader whose resource for strategy 3 is missing and that returns
the three-row table for every other id. -/
def loader4 : Nat → Option DataFrame :=
  fun i => if i = 3 then none else some exDF2

/-- Witness for C4 at the loader missing exactly strategy 3. -/
theorem C4_witness :
    ∃ rows ads, load_all_strategies loader4 = Except.ok (rows, ads)
      ∧ rows.map (fun r => r.strategy)
          = (List.range' 1 15).filter (fun i => (loader4 i).isSome)
      ∧ List.Sorted (fun a b => a < b) (rows.map fun r => r.strategy) :=
  C4_missing_isolated loader4 (by
    intro i df h
    unfold loader4 at h
    by_cases hi : i = 3
    · simp [hi] at h
    · simp [hi] at h
      subst h
      rfl)

/-- The loop returns an empty summary and empty `age_distributions`
when every load fails. -/
theorem processIds_all_none (loader : Nat → Option DataFrame)
    (h : ∀ i, loader i = none) (l : List Nat) :
    processIds loader l = Except.ok ([], []) := by
  induction l with
  | nil => rfl
  | cons n rest ih => simp [processIds, h n, ih]

/-- Claim C6: when the loader finds no resource for any catalog id, the
summary has zero rows and `main` takes the distinguished empty-summary
error path instead of rendering. -/
theorem C6_empty_summary (loader : Nat → Option DataFrame)
    (h : ∀ i, loader i = none) :
    load_all_strategies loader = Except.ok ([], [])
    ∧ main_result loader = Except.ok MainResult.emptyError := by
  have hl := processIds_all_none loader h (List.range' 1 15)
  exact ⟨hl, by simp [main_result, load_all_strategies, hl, Except.map]⟩

/-- Witness for C6 at the loader that always fails. -/
theorem C6_witness :
    load_all_strategies (fun _ => none) = Except.ok ([], [])
    ∧ main_result (fun _ => none) = Except.ok MainResult.emptyError :=
  C6_empty_summary (fun _ => none) fun _ => rfl

/-- Claim C9: a null series aggregates to an absence (`None`), not a
zero-filled record, and the build adds no row for an id whose load
returned `None`, so all-zero outcomes and no-data stay distinguishable. -/
theorem C9_null_is_absence (loader : Nat → Option DataFrame) (k : Nat)
    (hreq : ∀ i df, loader i = some df → required_present df = true)
    (hk : loader k = none) :
    calculate_metrics none = Except.ok none
    ∧ ∃ rows ads, load_all_strategies loader = Except.ok (rows, ads)
      ∧ ∀ r ∈ rows, r.strategy ≠ k := by
  obtain ⟨rows, ads, hok, hmap, -, -⟩ :=
    processIds_spec loader (List.range' 1 15) (by decide) hreq
  refine ⟨rfl, rows, ads, hok, ?_⟩
  intro r hr hrk
  have hmem : r.strategy ∈ rows.map fun r => r.strategy :=
    List.mem_map_of_mem _ hr
  rw [hmap] at hmem
  have hsome := (List.mem_filter.mp hmem).2
  rw [hrk, hk] at hsome
  simp at hsome

/-- A loader whose resource for strategy 5 is missing and that returns
the zero/five table for every other id. -/
def loader9 : Nat → Option DataFrame :=
  fun i => if i = 5 then none else some exDF1

/-- Witness for C9 at the loader missing exactly strategy 5. -/
theorem C9_witness :
    calculate_metrics none = Except.ok none
    ∧ ∃ rows ads, load_all_strategies loader9 = Except.ok (rows, ads)
      ∧ ∀ r ∈ rows, r.strategy ≠ 5 :=
  C9_null_is_absence loader9 5
    (by
      intro i df h
      unfold loader9 at h
      by_cases hi : i = 5
      · simp [hi] at h
      · simp [hi] at h
        subst h
        rfl)
    (by rfl)

/-- A loader whose resource for strategy 1 is missing and that returns
the three-row table for every other id. -/
def loader5 : Nat → Option DataFrame :=
  fun i => if i = 1 then none else some exDF2

/-- Counterexample to claim C5: the catalog iterated by the build is the
fixed 15-id range, and the value returned alongside the summary is the
mapping of the loaded ids to their tables, not the skipped-id set: with
exactly one missing id the summary has 14 rows (not 2) and the companion
component is keyed by the 14 loaded ids, not by the missing singleton. -/
theorem C5_counterexample :
    Except.map (fun p => (p.1.length, p.2.map Prod.fst))
        (load_all_strategies loader5)
      = Except.ok (14, [2, 3, 4, 5, 6, 7, 8, 9, 10, 11, 12, 13, 14, 15])
    ∧ (14 : Nat) ≠ 2
    ∧ [2, 3, 4, 5, 6, 7, 8, 9, 10, 11, 12, 13, 14, 15] ≠ ([1] : List Nat) :=
  ⟨by rfl, by decide, by decide⟩

/-- Claim C5 as amended: over the fixed 15-id catalog, when the loader
fails for exactly one id `k`, the build succeeds with exactly 14 summary
rows, and the skipped ids — recoverable as the catalog ids absent from
the summary, rather than returned as a set — are exactly `[k]`. -/
theorem C5_amended_skipped (loader : Nat → Option DataFrame) (k : Nat)
    (hreq : ∀ i df, loader i = some df → required_present df = true)
    (hk : k ∈ List.range' 1 15)
    (hmiss : ∀ i ∈ List.range' 1 15, (loader i = none ↔ i = k)) :
    ∃ rows ads, load_all_strategies loader = Except.ok (rows, ads)
      ∧ rows.length = 14
      ∧ rows.map (fun r => r.strategy)
          = (List.range' 1 15).filter (fun i => decide (i ≠ k))
      ∧ (List.range' 1 15).filter
          (fun i => decide (i ∉ rows.map fun r => r.strategy)) = [k] := by
  obtain ⟨rows, ads, hok, hmap, -, -⟩ :=
    processIds_spec loader (List.range' 1 15) (by decide) hreq
  have hfil : (List.range' 1 15).filter (fun i => (loader i).isSome)
      = (List.range' 1 15).filter (fun i => decide (i ≠ k)) := by
    apply List.filter_congr
    intro i hi
    by_cases hik : i = k
    · subst hik
      have hnone : loader i = none := (hmiss i hi).mpr rfl
      simp [hnone]
    · have hne : loader i ≠ none := fun hn => hik ((hmiss i hi).mp hn)
      rw [Option.ne_none_iff_isSome] at hne
      simp [hne, hik]
  rw [hfil] at hmap
  rw [catalog_ids_eq] at hk
  refine ⟨rows, ads, hok, ?_, hmap, ?_⟩
  · have hlen : rows.length = (rows.map fun r => r.strategy).length :=
      (List.length_map _ _).symm
    rw [hlen, hmap]
    fin_cases hk <;> decide
  · simp only [hmap]
    fin_cases hk <;> decide

/-- Witness for the amended C5 at the loader missing exactly strategy 1:
14 rows, skipped ids `[1]`. -/
theorem C5_witness :
    ∃ rows ads, load_all_strategies loader5 = Except.ok (rows, ads)
      ∧ rows.length = 14
      ∧ rows.map (fun r => r.strategy)
          = (List.range' 1 15).filter (fun i => decide (i ≠ 1))
      ∧ (List.range' 1 15).filter
          (fun i => decide (i ∉ rows.map fun r => r.strategy)) = [1] :=
  C5_amended_skipped loader5 1
    (by
      intro i df h
      unfold loader5 at h
      by_cases hi : i = 1
      · simp [hi] at h
      · simp [hi] at h
        subst h
        rfl)
    (by decide)
    (by decide)

/-- Claim C7: the overview-table sort key and the detailed-table sort
key are one and the same function; a numeric label up to 9 is keyed by
its own value, a larger numeric label by its value plus 3; id 5 precedes
id 10 in ascending order while label "10" gets key 13; and on the
catalog's display labels the key is strictly monotone in the id, so both
display orderings agree with ascending-id order on every id. -/
theorem C7_sort_key_shared :
    overview_sort_key = main_sort_key
    ∧ (∀ x : String, str_isdigit x = true → str_to_nat x ≤ 9 →
        overview_sort_key x = str_to_nat x)
    ∧ (∀ x : String, str_isdigit x = true → 9 < str_to_nat x →
        overview_sort_key x = str_to_nat x + 3)
    ∧ overview_sort_key "5" = 5
    ∧ overview_sort_key "10" = 13
    ∧ main_sort_key "10" = 13
    ∧ (5 : Nat) < 10
    ∧ ∀ i ∈ List.range' 1 15, ∀ j ∈ List.range' 1 15, i < j →
        overview_sort_key
            (((STRATEGY_DEFINITIONS i).map fun d => d.display).getD "")
          < overview_sort_key
            (((STRATEGY_DEFINITIONS j).map fun d => d.display).getD "") := by
  refine ⟨funext fun x => rfl, ?_, ?_, by decide, by decide, by decide,
    by decide, by decide⟩
  · intro x h1 h2
    unfold overview_sort_key
    rw [if_pos ⟨h1, h2⟩]
  · intro x h1 h2
    unfold overview_sort_key
    rw [if_neg fun hc => Nat.not_le.mpr h2 hc.2, if_pos h1]

/-- Witness for C7: concrete labels on both sides of the 9 boundary. -/
theorem C7_witness :
    overview_sort_key "7" = str_to_nat "7"
    ∧ overview_sort_key "12" = str_to_nat "12" + 3 :=
  ⟨C7_sort_key_shared.2.1 "7" (by decide) (by decide),
   C7_sort_key_shared.2.2.1 "12" (by decide) (by decide)⟩

/-- Claim C8: aggregation is order independent — two tables with the
same columns whose rows are permutations of one another produce the same
`calculate_metrics` outcome, totals and derived rates included. -/
theorem C8_order_invariant (df1 df2 : DataFrame) (hs : df1.schema = df2.schema)
    (hp : List.Perm df1.rows df2.rows) :
    calculate_metrics (some df1) = calculate_metrics (some df2) := by
  have hsum : ∀ f : AgeRow → ℚ,
      (List.map f df1.rows).sum = (List.map f df2.rows).sum :=
    fun f => (hp.map f).sum_eq
  simp only [calculate_metrics, metricsOf, optSum, hs, hsum]

/-- The two-row table of the permutation witness. -/
def exDF8a : DataFrame :=
  { schema := reqSchema, rows := [mkRow 1 1 0 100, mkRow 2 2 1 100] }

/-- The same table with its rows swapped. -/
def exDF8b : DataFrame :=
  { schema := reqSchema, rows := [mkRow 2 2 1 100, mkRow 1 1 0 100] }

/-- Witness for C8 at a concrete two-row table and its row swap. -/
theorem C8_witness :
    calculate_metrics (some exDF8a) = calculate_metrics (some exDF8b) :=
  C8_order_invariant exDF8a exDF8b rfl
    (List.Perm.swap (mkRow 2 2 1 100) (mkRow 1 1 0 100) [])

/-- Claim C10: every catalog entry's display label is the decimal string
of its id — strategies 10..15 display as "10".."15", not "13".."18" —
and every summary row built from the catalog keeps that label. -/
theorem C10_display_labels (loader : Nat → Option DataFrame)
    (hreq : ∀ i df, loader i = some df → required_present df = true) :
    (∀ i ∈ List.range' 1 15,
        ((STRATEGY_DEFINITIONS i).map fun d => d.display) = some (toString i))
    ∧ ∃ rows ads, load_all_strategies loader = Except.ok (rows, ads)
      ∧ ∀ r ∈ rows, r.display = toString r.strategy := by
  have hcat : ∀ i ∈ List.range' 1 15,
      ((STRATEGY_DEFINITIONS i).map fun d => d.display) = some (toString i) := by
    decide
  obtain ⟨rows, ads, hok, -, -, hdisp⟩ :=
    processIds_spec loader (List.range' 1 15) (by decide) hreq
  refine ⟨hcat, rows, ads, hok, ?_⟩
  intro r hr
  obtain ⟨hmem, d, hd, hdd⟩ := hdisp r hr
  have hx := hcat r.strategy hmem
  rw [hd] at hx
  simp only [Option.map_some'] at hx
  rw [hdd]
  injection hx

/-- Witness for C10 at a loader that returns the zero/five table for
every id. -/
theorem C10_witness :
    (∀ i ∈ List.range' 1 15,
        ((STRATEGY_DEFINITIONS i).map fun d => d.display) = some (toString i))
    ∧ ∃ rows ads, load_all_strategies (fun _ => some exDF1)
          = Except.ok (rows, ads)
      ∧ ∀ r ∈ rows, r.display = toString r.strategy :=
  C10_display_labels (fun _ => some exDF1) (by
    intro i df h
    injection h with h
    subst h
    rfl)
